import Mathlib

/-!
Shallow embedding of the entra-chat-connect front-end chat logic.

The embedded code is the `ChatPage` component (its `acquireToken` and
`sendMessage` callbacks), the `apiConfig` configuration, and the chat-view
operations that touch component state.  React state updates performed by the
source are modelled as an explicit trace of `Action`s folded over a
`ChatState`; the values the callbacks close over at invocation time (the
`input`, `isLoading` and `error` state of the render that created the
callback) are taken from the state at the start of the attempt, which is
exactly the value the running closure sees even after `setError` /
`setInput` calls are issued during the same attempt.
-/

namespace EntraChat

/-- Role of a chat message, from the `Message` interface:
`role: "user" | "assistant"`. -/
inductive Role where
  | user
  | assistant
  deriving DecidableEq, Repr

/-- A chat message, from the `Message` interface: id (a UUID string),
role, content, timestamp (a `Date`, modelled as Nat milliseconds). -/
structure Message where
  id : String
  role : Role
  content : String
  timestamp : Nat
  deriving DecidableEq, Repr

/-- Error classification, from the `ChatError` interface:
`type: "auth" | "server" | "network"`. -/
inductive ErrorType where
  | auth
  | server
  | network
  deriving DecidableEq, Repr

/-- A chat error record, from the `ChatError` interface. -/
structure ChatError where
  type : ErrorType
  message : String
  deriving DecidableEq, Repr

/-- The mutable state of `ChatPage`: the four `useState` hooks
`messages`, `input`, `isLoading`, `error`. -/
structure ChatState where
  messages : List Message
  input : String
  isLoading : Bool
  error : Option ChatError
  deriving DecidableEq, Repr

/-- API endpoint configuration from `authConfig.ts` (`apiConfig`). -/
structure ApiConfig where
  chatEndpoint : String
  deriving DecidableEq, Repr

/-- Source: `export const apiConfig = \x7b chatEndpoint: "/chat" \x7d`. -/
def apiConfig : ApiConfig := { chatEndpoint := "/chat" }

/-- The JSON body sent to the backend: `JSON.stringify(\x7b prompt: trimmedInput \x7d)`,
modelled structurally. -/
structure RequestBody where
  prompt : String
  deriving DecidableEq, Repr

/-- The HTTP request issued by `fetch` in `sendMessage`. -/
structure HttpRequest where
  url : String
  method : String
  authorization : String
  contentType : String
  body : RequestBody
  deriving DecidableEq, Repr

/-- Outcome of `instance.acquireTokenSilent`: resolves with an id token,
rejects with `InteractionRequiredAuthError`, or rejects with any other
error. -/
inductive SilentResult where
  | success (idToken : String)
  | interactionRequired
  | otherFailure
  deriving DecidableEq, Repr

/-- Outcome of `instance.acquireTokenPopup`: resolves with an id token or
rejects. -/
inductive PopupResult where
  | success (idToken : String)
  | failure
  deriving DecidableEq, Repr

/-- Outcome of `response.json()` on a success response: throws (malformed
body) or yields an object whose `reply` field is a string. -/
inductive BodyOutcome where
  | malformed
  | jsonReply (reply : String)
  deriving DecidableEq, Repr

/-- Outcome of the `fetch` call: the promise rejects (network failure) or
resolves with a response carrying a status code and a body. -/
inductive HttpOutcome where
  | networkFailure
  | response (status : Nat) (body : BodyOutcome)
  deriving DecidableEq, Repr

/-- One observable effect of a send attempt, in source order: the four
state setters of `ChatPage`, the two MSAL acquisition calls, and the
`fetch` call. -/
inductive Action where
  | setError (e : Option ChatError)
  | setInput (v : String)
  | appendMessage (m : Message)
  | setLoading (b : Bool)
  | silentAttempt
  | popupAttempt
  | httpRequest (req : HttpRequest)
  deriving DecidableEq, Repr

/-- Effect of one action on the component state.  `setMessages((prev) =>
[...prev, m])` appends to the latest list; the other setters overwrite.
The MSAL calls and the `fetch` call do not touch component state. -/
def applyAction (s : ChatState) : Action → ChatState
  | .setError e => { s with error := e }
  | .setInput v => { s with input := v }
  | .appendMessage m => { s with messages := s.messages ++ [m] }
  | .setLoading b => { s with isLoading := b }
  | .silentAttempt => s
  | .popupAttempt => s
  | .httpRequest _ => s

/-- Run a trace of actions over a state, first action first. -/
def runActions (s : ChatState) (as : List Action) : ChatState :=
  as.foldl applyAction s

/-- Literal from the source: message of the auth error set when the popup
fallback also fails. -/
def authFailedMsg : String := "Authentication failed. Please sign in again."

/-- Literal from the source: message of the 401 error. -/
def sessionExpiredMsg : String := "Session expired. Please sign in again."

/-- Literal from the source: message of the 403 error. -/
def accessDeniedMsg : String := "Access denied. You don\x27t have permission to use this service."

/-- Literal from the source: message of the 500 error. -/
def serverErrorMsg : String := "Server error. Please try again later."

/-- Literal from the source: the template prefix of the default-branch
error message, completed by the literal status code. -/
def statusMsgBase : String := "Request failed with status "

/-- Literal from the source: message of the catch-all network error. -/
def networkErrorMsg : String := "Network error. Please check your connection."

/-- The auth error set by `acquireToken` when the popup fallback fails. -/
def authFailedError : ChatError := { type := .auth, message := authFailedMsg }

/-- The network error set by the catch block of `sendMessage`. -/
def networkError : ChatError := { type := .network, message := networkErrorMsg }

/-- Function `acquireToken` from `ChatPage`: with no active account return null at
once; otherwise try `acquireTokenSilent`; on `InteractionRequiredAuthError`
fall back to `acquireTokenPopup`, and if that also fails set an auth error
and return null; any other silent failure is only logged and returns null.
Returns the token (if any) and the trace of effects, in source order. -/
def acquireToken (activeAccount : Option String) (silent : SilentResult)
    (popup : PopupResult) : Option String × List Action :=
  match activeAccount with
  | none => (none, [])
  | some _ =>
    match silent with
    | .success t => (some t, [.silentAttempt])
    | .interactionRequired =>
      match popup with
      | .success t => (some t, [.silentAttempt, .popupAttempt])
      | .failure =>
          (none, [.silentAttempt, .popupAttempt, .setError (some authFailedError)])
    | .otherFailure => (none, [.silentAttempt])

/-- The `switch (response.status)` of `sendMessage`: the error recorded for
a non-ok response, as a function of the status code. -/
def statusError (status : Nat) : ChatError :=
  if status = 401 then { type := .auth, message := sessionExpiredMsg }
  else if status = 403 then { type := .auth, message := accessDeniedMsg }
  else if status = 500 then { type := .server, message := serverErrorMsg }
  else { type := .server, message := statusMsgBase ++ toString status }

/-- Predicate for `response.ok` of the Fetch API: status in the range 200 to 299. -/
def isOk (status : Nat) : Prop := 200 ≤ status ∧ status ≤ 299

instance (status : Nat) : Decidable (isOk status) :=
  inferInstanceAs (Decidable (200 ≤ status ∧ status ≤ 299))

/-- The catch block of `sendMessage`: `if (!error) setError(network)`.
`error0` is the closure value of `error`, i.e. the error state at the
start of the attempt (React state setters issued during the attempt do
not change the value the running closure reads). -/
def catchActions (error0 : Option ChatError) : List Action :=
  match error0 with
  | none => [.setError (some networkError)]
  | some _ => []

/-- The environment of one send attempt: everything outside the component
state that the attempt consumes (MSAL accounts and call outcomes, the
fetch outcome, the generated UUIDs and timestamps). -/
structure SendEnv where
  accounts : List String
  silent : SilentResult
  popup : PopupResult
  http : HttpOutcome
  userMsgId : String
  userMsgTime : Nat
  assistantMsgId : String
  assistantMsgTime : Nat
  deriving Repr

/-- Source: `const activeAccount = accounts[0]`. -/
def SendEnv.activeAccount (env : SendEnv) : Option String :=
  env.accounts.head?

/-- The user message built by `sendMessage` from the trimmed input. -/
def userMessageOf (env : SendEnv) (content : String) : Message :=
  { id := env.userMsgId, role := .user, content := content,
    timestamp := env.userMsgTime }

/-- The assistant message built by `sendMessage` from `data.reply`. -/
def assistantMessageOf (env : SendEnv) (content : String) : Message :=
  { id := env.assistantMsgId, role := .assistant, content := content,
    timestamp := env.assistantMsgTime }

/-- Literal from the source: the request method. -/
def httpPost : String := "POST"

/-- Literal from the source: prefix of the Authorization header value. -/
def bearerScheme : String := "Bearer "

/-- Literal from the source: the Content-Type header value. -/
def contentTypeJson : String := "application/json"

/-- The `fetch(apiConfig.chatEndpoint, \x7b ... \x7d)` request built by
`sendMessage`. -/
def requestOf (token : String) (trimmedInput : String) : HttpRequest :=
  { url := apiConfig.chatEndpoint, method := httpPost,
    authorization := bearerScheme ++ token, contentType := contentTypeJson,
    body := { prompt := trimmedInput } }

/-- Handling of the resolved `fetch`: non-ok status switches on the status
and returns; an ok status parses the body (a parse failure lands in the
catch block) and appends the assistant message. -/
def responseActions (error0 : Option ChatError) (env : SendEnv)
    (outcome : HttpOutcome) : List Action :=
  match outcome with
  | .networkFailure => catchActions error0
  | .response status body =>
    if isOk status then
      match body with
      | .malformed => catchActions error0
      | .jsonReply reply => [.appendMessage (assistantMessageOf env reply)]
    else
      [.setError (some (statusError status))]

/-- The try block of `sendMessage`: acquire a token; with no token the
`throw` lands in the catch block; with a token issue the single fetch and
handle its outcome. -/
def tryBlockActions (env : SendEnv) (error0 : Option ChatError)
    (trimmedInput : String) : List Action :=
  match acquireToken env.activeAccount env.silent env.popup with
  | (none, acqActs) => acqActs ++ catchActions error0
  | (some token, acqActs) =>
      acqActs ++ [.httpRequest (requestOf token trimmedInput)]
        ++ responseActions error0 env env.http

/-- The cleared input value written by `setInput("")`. -/
def emptyInput : String := ""

/-- JS `String.prototype.trim()` on the character list: drop whitespace
from the front and from the back. -/
def trimChars (cs : List Char) : List Char :=
  ((cs.dropWhile Char.isWhitespace).reverse.dropWhile Char.isWhitespace).reverse

/-- JS `input.trim()`, modelled structurally so it is kernel-computable. -/
def jsTrim (s : String) : String := ⟨trimChars s.data⟩

/-- The four statements run before the try block: `setError(null)`,
`setInput("")`, append of the user message, `setIsLoading(true)`. -/
def openingActions (env : SendEnv) (trimmedInput : String) : List Action :=
  [.setError none, .setInput emptyInput,
   .appendMessage (userMessageOf env trimmedInput), .setLoading true]

/-- The full effect trace of one `sendMessage` invocation.  The guard
`if (!trimmedInput || isLoading) return` produces the empty trace; the
finally block appends `setIsLoading(false)` in every other path. -/
def sendMessageTrace (env : SendEnv) (s : ChatState) : List Action :=
  if jsTrim s.input = "" ∨ s.isLoading = true then []
  else
    openingActions env (jsTrim s.input)
      ++ tryBlockActions env s.error (jsTrim s.input)
      ++ [.setLoading false]

/-- Function `sendMessage`: the resulting component state together with the trace
of effects of the attempt. -/
def sendMessage (env : SendEnv) (s : ChatState) : ChatState × List Action :=
  (runActions s (sendMessageTrace env s), sendMessageTrace env s)

/-- Actions that constitute network activity: the two MSAL token calls and
the fetch. -/
def isNetworkAction : Action → Bool
  | .silentAttempt => true
  | .popupAttempt => true
  | .httpRequest _ => true
  | _ => false

/-- The HTTP requests contained in a trace. -/
def requestsOf (as : List Action) : List HttpRequest :=
  as.filterMap fun a =>
    match a with
    | .httpRequest r => some r
    | _ => none

/-- The operations of the chat view that can touch component state: a
submit (button click or Enter key, both call `sendMessage`), typing in the
input field (`onChange` calls `setInput`), and the logout button (which
only calls `instance.logoutRedirect` and touches no chat state). -/
inductive Operation where
  | submit (env : SendEnv)
  | typeInput (v : String)
  | logoutClick

/-- Effect of one chat-view operation on the component state. -/
def stepOperation : Operation → ChatState → ChatState
  | .submit env, s => (sendMessage env s).1
  | .typeInput v, s => { s with input := v }
  | .logoutClick, s => s

/-- The token an attempt obtains from `acquireToken`, if any. -/
def tokenOf (env : SendEnv) : Option String :=
  (acquireToken env.activeAccount env.silent env.popup).1

/-- The error `acquireToken` records during the attempt: only the
silent-fails-interaction-required, popup-also-fails path sets one. -/
def acqError (env : SendEnv) : Option ChatError :=
  match env.activeAccount, env.silent, env.popup with
  | some _, .interactionRequired, .failure => some authFailedError
  | _, _, _ => none

/-- Characterization of the error state at the end of an attempt that
passed the guard, as a function of the environment and of the error
pending at the start of the attempt (the closure value the catch block
reads). -/
def finalError (env : SendEnv) (error0 : Option ChatError) : Option ChatError :=
  match tokenOf env with
  | none =>
    match error0 with
    | none => some networkError
    | some _ => acqError env
  | some _ =>
    match env.http with
    | .networkFailure =>
      match error0 with
      | none => some networkError
      | some _ => none
    | .response status body =>
      if isOk status then
        match body with
        | .malformed =>
          match error0 with
          | none => some networkError
          | some _ => none
        | .jsonReply _ => none
      else some (statusError status)

/-- Characterization of the messages an attempt that passed the guard
appends after the user message: the assistant message exactly on the
ok-status, well-formed-body path. -/
def assistantTail (env : SendEnv) : List Message :=
  match tokenOf env with
  | none => []
  | some _ =>
    match env.http with
    | .networkFailure => []
    | .response status body =>
      if isOk status then
        match body with
        | .malformed => []
        | .jsonReply reply => [assistantMessageOf env reply]
      else []

theorem runActions_append (s : ChatState) (as bs : List Action) :
    runActions s (as ++ bs) = runActions (runActions s as) bs := by
  simp [runActions, List.foldl_append]

theorem guard_false (s : ChatState) (h1 : jsTrim s.input ≠ "")
    (h2 : s.isLoading = false) : ¬(jsTrim s.input = "" ∨ s.isLoading = true) := by
  simp [h1, h2]

/-- Master characterization of one guarded-through send attempt: the final
state in terms of `finalError` and `assistantTail`. -/
theorem sendMessage_final (env : SendEnv) (s : ChatState)
    (h1 : jsTrim s.input ≠ "") (h2 : s.isLoading = false) :
    (sendMessage env s).1 =
      { messages := s.messages ++ [userMessageOf env (jsTrim s.input)] ++ assistantTail env,
        input := emptyInput, isLoading := false,
        error := finalError env s.error } := by
  obtain ⟨accs, sl, pp, ht, ui, ut, ai, at'⟩ := env
  simp only [sendMessage, sendMessageTrace, if_neg (guard_false s h1 h2)]
  cases hE : s.error <;>
    cases accs <;> cases sl <;> cases pp <;> cases ht <;>
    first
    | (simp [runActions, applyAction, openingActions, tryBlockActions, acquireToken,
        SendEnv.activeAccount, catchActions, responseActions, tokenOf, finalError,
        assistantTail, acqError, hE]
       done)
    | (rename_i status body
       by_cases hOk : isOk status <;> cases body <;>
         simp [runActions, applyAction, openingActions, tryBlockActions, acquireToken,
           SendEnv.activeAccount, catchActions, responseActions, tokenOf, finalError,
           assistantTail, acqError, hE, hOk])

/-- The requests of a guarded-through attempt: none without a token,
exactly the one built request with one. -/
theorem sendMessageTrace_requests (env : SendEnv) (s : ChatState)
    (h1 : jsTrim s.input ≠ "") (h2 : s.isLoading = false) :
    requestsOf (sendMessageTrace env s) =
      (match tokenOf env with
       | none => []
       | some t => [requestOf t (jsTrim s.input)]) := by
  obtain ⟨accs, sl, pp, ht, ui, ut, ai, at'⟩ := env
  simp only [sendMessageTrace, if_neg (guard_false s h1 h2)]
  cases hE : s.error <;> cases accs <;> cases sl <;> cases pp <;> cases ht <;>
    first
    | (simp [requestsOf, openingActions, tryBlockActions, acquireToken,
        SendEnv.activeAccount, catchActions, responseActions, tokenOf, hE]
       done)
    | (rename_i status body
       by_cases hOk : isOk status <;> cases body <;>
         simp [requestsOf, openingActions, tryBlockActions, acquireToken,
           SendEnv.activeAccount, catchActions, responseActions, tokenOf, hE, hOk])

/-- Every message of the assistant tail has the assistant role. -/
theorem assistantTail_roles (env : SendEnv) :
    ∀ m ∈ assistantTail env, m.role = Role.assistant := by
  intro m hm
  cases htk : tokenOf env <;> cases hh : env.http <;>
    first
    | (simp [assistantTail, htk, hh] at hm
       done)
    | (rename_i status body
       by_cases hOk : isOk status <;> cases body <;>
         simp [assistantTail, htk, hh, hOk] at hm <;>
         simp [hm, assistantMessageOf])

/-- When a token is obtained, `acquireToken` recorded no error. -/
theorem acqError_none_of_token_some (env : SendEnv) (t : String)
    (h : tokenOf env = some t) : acqError env = none := by
  cases hA : env.activeAccount <;> cases hS : env.silent <;> cases hP : env.popup <;>
    simp [tokenOf, acquireToken, hA, hS, hP] at h ⊢ <;>
    simp [acqError, hA, hS, hP]

/-- The only error `acquireToken` ever records is the auth error. -/
theorem acqError_cases (env : SendEnv) :
    ∀ e, acqError env = some e → e = authFailedError ∧ e.type = ErrorType.auth := by
  intro e he
  cases hA : env.activeAccount <;> cases hS : env.silent <;> cases hP : env.popup <;>
    simp [acqError, hA, hS, hP] at he <;> simp [← he, authFailedError]

/-- Running any trace of actions only ever extends the message list at its
end. -/
theorem runActions_messages_extension (as : List Action) (s : ChatState) :
    ∃ t, (runActions s as).messages = s.messages ++ t := by
  induction as generalizing s with
  | nil => exact ⟨[], by simp [runActions]⟩
  | cons a as ih =>
    obtain ⟨t, ht⟩ := ih (applyAction s a)
    cases a with
    | setError e => exact ⟨t, by simpa [runActions, applyAction] using ht⟩
    | setInput v => exact ⟨t, by simpa [runActions, applyAction] using ht⟩
    | appendMessage m =>
        exact ⟨m :: t, by simpa [runActions, applyAction] using ht⟩
    | setLoading b => exact ⟨t, by simpa [runActions, applyAction] using ht⟩
    | silentAttempt => exact ⟨t, by simpa [runActions, applyAction] using ht⟩
    | popupAttempt => exact ⟨t, by simpa [runActions, applyAction] using ht⟩
    | httpRequest r => exact ⟨t, by simpa [runActions, applyAction] using ht⟩

/-- The paths of `sendMessage` on which an exception reaches the catch
block: the `throw` after a null token, a rejected `fetch`, or a
`response.json()` failure on an ok response. -/
def throwsDuringAttempt (env : SendEnv) : Prop :=
  tokenOf env = none
  ∨ env.http = HttpOutcome.networkFailure
  ∨ ∃ status, env.http = HttpOutcome.response status BodyOutcome.malformed
      ∧ isOk status

/-! Concrete data for witnesses and counterexamples. -/

/-- A sample account username. -/
def acctA : String := "alice"

/-- A sample id token. -/
def tokA : String := "tok-1"

/-- A sample non-blank input. -/
def inputHi : String := "hi"

/-- A sample whitespace-only input. -/
def blankInput : String := "   "

/-- A sample backend reply. -/
def replyHello : String := "hello"

/-- A sample UUID for the user message. -/
def idU : String := "m-user"

/-- A sample UUID for the assistant message. -/
def idA : String := "m-assistant"

/-- A fully successful environment: one account, silent acquisition
succeeds, the backend replies 200 with a well-formed body. -/
def baseEnv : SendEnv :=
  { accounts := [acctA], silent := .success tokA, popup := .failure,
    http := .response 200 (.jsonReply replyHello),
    userMsgId := idU, userMsgTime := 1, assistantMsgId := idA,
    assistantMsgTime := 2 }

/-- Environment whose backend answers 418 (arbitrary unmapped status). -/
def env418 : SendEnv := { baseEnv with http := .response 418 .malformed }

/-- Environment with no signed-in account and a dead network. -/
def envNoToken : SendEnv :=
  { baseEnv with
    accounts := [],
    silent := .otherFailure,
    http := .networkFailure }

/-- Environment in which silent acquisition demands interaction and the
popup fails too. -/
def envPopupFail : SendEnv :=
  { baseEnv with
    silent := .interactionRequired,
    popup := .failure,
    http := .networkFailure }

/-- Environment with an account but no network. -/
def envNetFail : SendEnv := { baseEnv with http := .networkFailure }

/-- Environment with no signed-in account (everything else nominal). -/
def envNoAcct : SendEnv := { baseEnv with accounts := [] }

/-- Starting state: fresh transcript, input `"hi"`, idle, no error. -/
def sHi : ChatState :=
  { messages := [], input := inputHi, isLoading := false, error := none }

/-- Starting state with whitespace-only input. -/
def sBlank : ChatState :=
  { messages := [], input := blankInput, isLoading := false, error := none }

/-- A leftover error from some previous attempt. -/
def prevError : ChatError := { type := .server, message := serverErrorMsg }

/-- Starting state with an error still displayed from a previous attempt. -/
def sPrevErr : ChatState :=
  { messages := [], input := inputHi, isLoading := false,
    error := some prevError }

/-- Claim C1: any send attempt that reaches the network and receives a
non-success HTTP response records an error that is a function of the
status code alone: 401 maps to the authentication error with the
session-expired text, 403 to the authentication error with the
access-denied text, 500 to the server error with the generic server text,
and every other non-success status to a server error whose message
carries the literal status code; no assistant message is appended. -/
theorem nonSuccess_status_error_mapping (env : SendEnv) (s : ChatState)
    (h1 : jsTrim s.input ≠ "") (h2 : s.isLoading = false)
    (token : String) (htok : tokenOf env = some token)
    (status : Nat) (body : BodyOutcome)
    (hresp : env.http = HttpOutcome.response status body)
    (hns : ¬ isOk status) :
    (sendMessage env s).1.error = some (statusError status)
    ∧ (sendMessage env s).1.messages
        = s.messages ++ [userMessageOf env (jsTrim s.input)]
    ∧ statusError 401 = { type := .auth, message := sessionExpiredMsg }
    ∧ statusError 403 = { type := .auth, message := accessDeniedMsg }
    ∧ statusError 500 = { type := .server, message := serverErrorMsg }
    ∧ ∀ st, st ≠ 401 → st ≠ 403 → st ≠ 500 →
        (statusError st).type = ErrorType.server
        ∧ ∃ pre post, (statusError st).message = pre ++ toString st ++ post := by
  rw [sendMessage_final env s h1 h2]
  refine ⟨?_, ?_, rfl, rfl, rfl, ?_⟩
  · simp [finalError, htok, hresp, hns]
  · simp [assistantTail, htok, hresp, hns]
  · intro st hn1 hn2 hn3
    constructor
    · simp [statusError, hn1, hn2, hn3]
    · exact ⟨statusMsgBase, "", by simp [statusError, hn1, hn2, hn3]⟩

/-- Witness for C1 at the concrete status 418. -/
theorem nonSuccess_status_error_witness :
    jsTrim sHi.input ≠ ""
    ∧ sHi.isLoading = false
    ∧ tokenOf env418 = some tokA
    ∧ env418.http = HttpOutcome.response 418 BodyOutcome.malformed
    ∧ ¬ isOk 418
    ∧ (sendMessage env418 sHi).1.error = some (statusError 418) :=
  ⟨by decide, rfl, rfl, rfl, by decide,
    (nonSuccess_status_error_mapping env418 sHi (by decide) rfl tokA rfl 418
      BodyOutcome.malformed rfl (by decide)).1⟩

/-- Claim C5: a submission with empty-after-trim input, or while a send is
in flight, changes no component state and performs no effect at all (no
token acquisition, no HTTP request). -/
theorem guard_rejects_noop (env : SendEnv) (s : ChatState)
    (h : jsTrim s.input = "" ∨ s.isLoading = true) :
    sendMessage env s = (s, []) := by
  unfold sendMessage sendMessageTrace
  rw [if_pos h]
  rfl

/-- Witness for C5 at a whitespace-only input. -/
theorem guard_rejects_noop_witness :
    (jsTrim sBlank.input = "" ∨ sBlank.isLoading = true)
    ∧ sendMessage baseEnv sBlank = (sBlank, []) :=
  ⟨Or.inl (by decide), guard_rejects_noop baseEnv sBlank (Or.inl (by decide))⟩

/-- Claim C7: `acquireToken` tries silent acquisition first and returns
its token on success; on an interaction-required failure it tries the
popup and returns its token on success; if the popup also fails it
records the authentication error and returns none; any other silent
failure returns none with no error recorded. -/
theorem acquireToken_contract :
    (∀ (a t : String) (p : PopupResult),
        acquireToken (some a) (.success t) p = (some t, [.silentAttempt]))
    ∧ (∀ (a t : String),
        acquireToken (some a) .interactionRequired (.success t)
          = (some t, [.silentAttempt, .popupAttempt]))
    ∧ (∀ (a : String),
        acquireToken (some a) .interactionRequired .failure
          = (none,
             [.silentAttempt, .popupAttempt, .setError (some authFailedError)])
        ∧ authFailedError.type = ErrorType.auth)
    ∧ (∀ (a : String) (p : PopupResult),
        acquireToken (some a) .otherFailure p = (none, [.silentAttempt])) :=
  ⟨fun _ _ _ => rfl, fun _ _ => rfl, fun _ => ⟨rfl, rfl⟩, fun _ _ => rfl⟩

/-- Claim C9: the transcript is append-only: every state setter leaves the
message list unchanged or appends one message at the end, and every
chat-view operation extends the message list by a (possibly empty)
suffix, so existing entries are never edited, removed or reordered. -/
theorem transcript_append_only :
    (∀ (s : ChatState) (a : Action),
        (applyAction s a).messages = s.messages
        ∨ ∃ m, (applyAction s a).messages = s.messages ++ [m])
    ∧ ∀ (op : Operation) (s : ChatState),
        ∃ t, (stepOperation op s).messages = s.messages ++ t := by
  constructor
  · intro s a
    cases a with
    | appendMessage m => exact Or.inr ⟨m, rfl⟩
    | setError e => exact Or.inl rfl
    | setInput v => exact Or.inl rfl
    | setLoading b => exact Or.inl rfl
    | silentAttempt => exact Or.inl rfl
    | popupAttempt => exact Or.inl rfl
    | httpRequest r => exact Or.inl rfl
  · intro op s
    cases op with
    | submit env => exact runActions_messages_extension (sendMessageTrace env s) s
    | typeInput v => exact ⟨[], by simp [stepOperation]⟩
    | logoutClick => exact ⟨[], by simp [stepOperation]⟩

/-- Claim C4: a non-empty-after-trim submission while idle clears the
previous error, appends exactly one user-role message carrying the
trimmed input, and clears the input field, all before any network
activity; the appended user message survives every outcome of the
attempt. -/
theorem optimistic_user_append (env : SendEnv) (s : ChatState)
    (h1 : jsTrim s.input ≠ "") (h2 : s.isLoading = false) :
    (∃ rest, sendMessageTrace env s
        = openingActions env (jsTrim s.input) ++ rest)
    ∧ (∀ a ∈ openingActions env (jsTrim s.input), isNetworkAction a = false)
    ∧ (userMessageOf env (jsTrim s.input)).role = Role.user
    ∧ (userMessageOf env (jsTrim s.input)).content = jsTrim s.input
    ∧ runActions s (openingActions env (jsTrim s.input)) =
        { messages := s.messages ++ [userMessageOf env (jsTrim s.input)],
          input := emptyInput, isLoading := true, error := none }
    ∧ ∃ tail, (sendMessage env s).1.messages
          = s.messages ++ userMessageOf env (jsTrim s.input) :: tail
        ∧ ∀ m ∈ tail, m.role = Role.assistant := by
  refine ⟨?_, ?_, rfl, rfl, ?_, ?_⟩
  · refine ⟨tryBlockActions env s.error (jsTrim s.input)
      ++ [Action.setLoading false], ?_⟩
    simp [sendMessageTrace, if_neg (guard_false s h1 h2)]
  · intro a ha
    simp [openingActions] at ha
    rcases ha with h | h | h | h <;> subst h <;> rfl
  · simp [runActions, applyAction, openingActions]
  · refine ⟨assistantTail env, ?_, assistantTail_roles env⟩
    rw [sendMessage_final env s h1 h2]
    simp

/-- Witness for C4 at a successful concrete attempt. -/
theorem optimistic_user_append_witness :
    jsTrim sHi.input ≠ ""
    ∧ sHi.isLoading = false
    ∧ ∃ rest, sendMessageTrace baseEnv sHi
        = openingActions baseEnv (jsTrim sHi.input) ++ rest :=
  ⟨by decide, rfl, (optimistic_user_append baseEnv sHi (by decide) rfl).1⟩

/-- Claim C6: a success response with a well-formed body appends exactly
one assistant message whose content is the reply value, at the end of the
transcript, and the in-flight flag ends cleared. -/
theorem success_reply_appends_assistant (env : SendEnv) (s : ChatState)
    (h1 : jsTrim s.input ≠ "") (h2 : s.isLoading = false)
    (token : String) (htok : tokenOf env = some token)
    (status : Nat) (reply : String)
    (hresp : env.http = HttpOutcome.response status (BodyOutcome.jsonReply reply))
    (hok : isOk status) :
    (sendMessage env s).1.messages
      = s.messages
        ++ [userMessageOf env (jsTrim s.input), assistantMessageOf env reply]
    ∧ (assistantMessageOf env reply).role = Role.assistant
    ∧ (assistantMessageOf env reply).content = reply
    ∧ (userMessageOf env (jsTrim s.input)).role ≠ Role.assistant
    ∧ (sendMessage env s).1.isLoading = false := by
  rw [sendMessage_final env s h1 h2]
  refine ⟨?_, rfl, rfl, by simp [userMessageOf], rfl⟩
  simp [assistantTail, htok, hresp, hok]

/-- Witness for C6 at a concrete 200 response with reply `"hello"`. -/
theorem success_reply_appends_assistant_witness :
    jsTrim sHi.input ≠ ""
    ∧ tokenOf baseEnv = some tokA
    ∧ baseEnv.http = HttpOutcome.response 200 (BodyOutcome.jsonReply replyHello)
    ∧ isOk 200
    ∧ (sendMessage baseEnv sHi).1.messages
        = sHi.messages
          ++ [userMessageOf baseEnv (jsTrim sHi.input),
              assistantMessageOf baseEnv replyHello] :=
  ⟨by decide, rfl, rfl, by decide,
    (success_reply_appends_assistant baseEnv sHi (by decide) rfl tokA rfl 200
      replyHello rfl (by decide)).1⟩

/-- Claim C8: an attempt that reaches the network step with a token issues
exactly one request: a POST to the configured endpoint with the Bearer
authorization header, the JSON content type, and the prompt body built
from the trimmed input. -/
theorem request_shape (env : SendEnv) (s : ChatState)
    (h1 : jsTrim s.input ≠ "") (h2 : s.isLoading = false)
    (token : String) (htok : tokenOf env = some token) :
    requestsOf (sendMessageTrace env s) = [requestOf token (jsTrim s.input)]
    ∧ (requestOf token (jsTrim s.input)).method = httpPost
    ∧ httpPost = "POST"
    ∧ (requestOf token (jsTrim s.input)).url = apiConfig.chatEndpoint
    ∧ apiConfig.chatEndpoint = "/chat"
    ∧ (requestOf token (jsTrim s.input)).authorization = bearerScheme ++ token
    ∧ bearerScheme = "Bearer "
    ∧ (requestOf token (jsTrim s.input)).contentType = contentTypeJson
    ∧ contentTypeJson = "application/json"
    ∧ (requestOf token (jsTrim s.input)).body = { prompt := jsTrim s.input } := by
  refine ⟨?_, rfl, rfl, rfl, rfl, rfl, rfl, rfl, rfl, rfl⟩
  have h := sendMessageTrace_requests env s h1 h2
  rw [htok] at h
  simpa using h

/-- Witness for C8 at a concrete successful attempt. -/
theorem request_shape_witness :
    jsTrim sHi.input ≠ ""
    ∧ sHi.isLoading = false
    ∧ tokenOf baseEnv = some tokA
    ∧ requestsOf (sendMessageTrace baseEnv sHi)
        = [requestOf tokA (jsTrim sHi.input)] :=
  ⟨by decide, rfl, rfl, (request_shape baseEnv sHi (by decide) rfl tokA rfl).1⟩

/-- Counterexample to C2 as stated: with no token obtainable and no error
pending before the attempt, the error recorded at the end is the
network-class catch error, not an authentication-class error. -/
theorem tokenNone_network_error_cex :
    tokenOf envNoToken = none
    ∧ (sendMessage envNoToken sHi).1.error = some networkError
    ∧ networkError.type = ErrorType.network
    ∧ networkError.type ≠ ErrorType.auth := by
  refine ⟨rfl, rfl, rfl, by decide⟩

/-- C2 as amended: when token acquisition returns none, no HTTP request is
issued; the recorded error is the network-class catch error when no error
was pending at the start of the attempt, and otherwise the error recorded
by acquisition during the attempt (the authentication error exactly when
the interactive fallback failed, else none). -/
theorem tokenNone_no_request_error (env : SendEnv) (s : ChatState)
    (h1 : jsTrim s.input ≠ "") (h2 : s.isLoading = false)
    (htok : tokenOf env = none) :
    requestsOf (sendMessageTrace env s) = []
    ∧ (sendMessage env s).1.error
        = (match s.error with
           | none => some networkError
           | some _ => acqError env)
    ∧ ∀ e, acqError env = some e → e = authFailedError ∧ e.type = ErrorType.auth := by
  refine ⟨?_, ?_, acqError_cases env⟩
  · have h := sendMessageTrace_requests env s h1 h2
    rw [htok] at h
    simpa using h
  · rw [sendMessage_final env s h1 h2]
    cases s.error <;> simp [finalError, htok]

/-- Witness for amended C2 at a concrete no-token attempt. -/
theorem tokenNone_no_request_error_witness :
    jsTrim sHi.input ≠ ""
    ∧ tokenOf envNoToken = none
    ∧ requestsOf (sendMessageTrace envNoToken sHi) = [] :=
  ⟨by decide, rfl,
    (tokenNone_no_request_error envNoToken sHi (by decide) rfl rfl).1⟩

/-- Counterexample to C3 as stated: the auth error recorded during the
attempt by the failed popup fallback is overwritten by the network catch
error, because the catch guard reads the stale pre-attempt closure value
of `error`, which is null. -/
theorem catch_overwrites_attempt_error_cex :
    Action.setError (some authFailedError) ∈ sendMessageTrace envPopupFail sHi
    ∧ (sendMessage envPopupFail sHi).1.error = some networkError
    ∧ networkError ≠ authFailedError := by
  refine ⟨by decide, rfl, by decide⟩

/-- C3 as amended: when an exception reaches the catch block, the network
error is recorded iff no error was pending at the start of the attempt
(the closure value the catch reads), overwriting any error recorded
during the attempt; with a pending pre-attempt error the catch records
nothing, leaving the error recorded during the attempt, or none. -/
theorem catch_guard_pre_attempt_error (env : SendEnv) (s : ChatState)
    (h1 : jsTrim s.input ≠ "") (h2 : s.isLoading = false)
    (hthrow : throwsDuringAttempt env) :
    (sendMessage env s).1.error
      = (match s.error with
         | none => some networkError
         | some _ => acqError env) := by
  rw [sendMessage_final env s h1 h2]
  rcases hthrow with htok | hnet | ⟨status, hresp, hok⟩
  · cases s.error <;> simp [finalError, htok]
  · cases htk : tokenOf env with
    | none => cases s.error <;> simp [finalError, htk]
    | some t =>
        have hae := acqError_none_of_token_some env t htk
        cases s.error <;> simp [finalError, htk, hnet, hae]
  · cases htk : tokenOf env with
    | none => cases s.error <;> simp [finalError, htk]
    | some t =>
        have hae := acqError_none_of_token_some env t htk
        cases s.error <;> simp [finalError, htk, hresp, hok, hae]

/-- Witness for amended C3: with a pre-attempt error pending, the auth
error recorded by the failed popup fallback is what remains. -/
theorem catch_guard_pre_attempt_error_witness :
    jsTrim sPrevErr.input ≠ ""
    ∧ sPrevErr.isLoading = false
    ∧ throwsDuringAttempt envPopupFail
    ∧ (sendMessage envPopupFail sPrevErr).1.error
        = (match sPrevErr.error with
           | none => some networkError
           | some _ => acqError envPopupFail) :=
  ⟨by decide, rfl, Or.inl rfl,
    catch_guard_pre_attempt_error envPopupFail sPrevErr (by decide) rfl
      (Or.inl rfl)⟩

/-- Counterexample to C10 as stated: with no account and an error still
pending from a previous attempt, the send fails with no recorded error at
all, not with the generic catch-path error. -/
theorem no_account_pending_error_cex :
    envNoAcct.activeAccount = none
    ∧ (sendMessage envNoAcct sPrevErr).1.error = none
    ∧ (sendMessage envNoAcct sPrevErr).1.error ≠ some networkError := by
  refine ⟨rfl, rfl, by decide⟩

/-- C10 as amended: with no active account, `acquireToken` returns none
at once, attempting neither silent nor interactive acquisition and
recording no error; a send in that state performs no network activity,
and records the generic network-class catch error when no error was
pending at the start of the attempt, else nothing — never an
authentication-class error. -/
theorem no_account_send_behavior (env : SendEnv) (s : ChatState)
    (hA : env.activeAccount = none)
    (h1 : jsTrim s.input ≠ "") (h2 : s.isLoading = false) :
    acquireToken env.activeAccount env.silent env.popup = (none, [])
    ∧ (sendMessageTrace env s).filter isNetworkAction = []
    ∧ (sendMessage env s).1.error
        = (match s.error with
           | none => some networkError
           | some _ => none)
    ∧ ∀ e, (sendMessage env s).1.error = some e → e.type = ErrorType.network := by
  have htk : tokenOf env = none := by simp [tokenOf, hA, acquireToken]
  have hacq : acqError env = none := by simp [acqError, hA]
  have herr : (sendMessage env s).1.error
      = (match s.error with
         | none => some networkError
         | some _ => none) := by
    rw [sendMessage_final env s h1 h2]
    cases s.error <;> simp [finalError, htk, hacq]
  refine ⟨by rw [hA]; rfl, ?_, herr, ?_⟩
  · cases hE : s.error <;>
      simp [sendMessageTrace, if_neg (guard_false s h1 h2), tryBlockActions,
        hA, acquireToken, openingActions, catchActions, hE, isNetworkAction]
  · intro e he
    rw [herr] at he
    cases hE : s.error <;> rw [hE] at he
    · simp at he
      simp [← he, networkError]
    · simp at he

/-- Witness for amended C10 at a concrete no-account attempt. -/
theorem no_account_send_behavior_witness :
    envNoAcct.activeAccount = none
    ∧ jsTrim sHi.input ≠ ""
    ∧ acquireToken envNoAcct.activeAccount envNoAcct.silent envNoAcct.popup
        = (none, [])
    ∧ (sendMessageTrace envNoAcct sHi).filter isNetworkAction = [] :=
  ⟨rfl, by decide,
    (no_account_send_behavior envNoAcct sHi rfl (by decide) rfl).1,
    (no_account_send_behavior envNoAcct sHi rfl (by decide) rfl).2.1⟩

end EntraChat
